import Mathlib

/-!
Verification of `src/services/deliveryoptimizer-api/server.py`.

The Python service is shallowly embedded: JSON/Python values become the
inductive `PyVal`, dicts become association lists (JSON objects have unique
keys, so first-match lookup agrees with Python dict lookup), numbers become
`Rat` (every literal in the program is exactly representable), and functions
that can raise uncaught exceptions become `Option`-valued functions.
External effects (the solver subprocess, the upstream HTTP probe, the JSON
parser of solver output) are oracles passed in as explicit arguments.
-/

set_option autoImplicit false

namespace DeliveryOptimizer

/-- A decoded Python/JSON value as manipulated by the server.
`null` models Python `None`; `bool` is kept separate from `int` because
Python's `isinstance(x, int)` accepts both (`bool` is a subclass of `int`)
while equality and `str` distinguish them. -/
inductive PyVal where
  | null
  | bool (b : Bool)
  | int (n : Int)
  | float (q : Rat)
  | str (s : String)
  | list (xs : List PyVal)
  | dict (fields : List (String × PyVal))
  deriving BEq, Repr

/-- Python `x is None`. -/
def isNull : PyVal → Bool
  | .null => true
  | _ => false

/-- Python `isinstance(x, int)`: `bool` is a subclass of `int`. -/
def isIntType : PyVal → Bool
  | .int _ => true
  | .bool _ => true
  | _ => false

/-- Python `isinstance(x, (int, float))`. -/
def isNumType : PyVal → Bool
  | .int _ => true
  | .bool _ => true
  | .float _ => true
  | _ => false

/-- The numeric value used by Python comparisons (`True == 1`, `False == 0`);
junk `0` on non-numbers, only consulted behind an `isinstance` guard. -/
def pyNumD : PyVal → Rat
  | .bool b => if b then 1 else 0
  | .int n => (n : Rat)
  | .float q => q
  | _ => 0

/-- Python `str()` restricted to the values this development applies it to.
The program feeds it caller-supplied `id` values and the synthesized
`"vehicle-<i>"`/`"job-<i>"` default strings; the rendering of floats, lists
and dicts is approximate and never exercised by a theorem below. -/
def pyStr : PyVal → String
  | .null => "None"
  | .bool true => "True"
  | .bool false => "False"
  | .int n => toString n
  | .float q => toString q
  | .str s => s
  | .list _ => "[...]"
  | .dict _ => "\x7b...\x7d"

/-- Lookup in a JSON object (association list). JSON objects produced by
`json.loads` have unique keys, so first-match lookup is Python dict lookup. -/
def dictGet : List (String × PyVal) → String → Option PyVal
  | [], _ => Option.none
  | (k, v) :: rest, key => if k = key then some v else dictGet rest key

/-- Python `d[key] = v`: overwrite in place keeping the key's position,
append at the end when the key is new. -/
def dictSet : List (String × PyVal) → String → PyVal → List (String × PyVal)
  | [], key, v => [(key, v)]
  | (k, w) :: rest, key, v =>
      if k = key then (k, v) :: rest else (k, w) :: dictSet rest key v

/-- Python `x.get(key)` on a value known to be a dict (`None` when absent). -/
def pyGet (v : PyVal) (key : String) : Option PyVal :=
  match v with
  | .dict fields => dictGet fields key
  | _ => Option.none

/-- Python `x.get(key, default)` on a dict. -/
def pyGetD (v : PyVal) (key : String) (dflt : PyVal) : PyVal :=
  (pyGet v key).getD dflt

/-- `is_coord` from server.py: a 2-element list of `int`/`float` (hence also
`bool`) with longitude in [-180, 180] and latitude in [-90, 90]. -/
def is_coord (value : PyVal) : Bool :=
  match value with
  | .list [lon, lat] =>
      isNumType lon && isNumType lat &&
      decide ((-180 : Rat) ≤ pyNumD lon) && decide (pyNumD lon ≤ 180) &&
      decide ((-90 : Rat) ≤ pyNumD lat) && decide (pyNumD lat ≤ 90)
  | _ => false

/-- The vehicle `capacity` check of `validate_payload`:
`isinstance(capacity, int) and capacity > 0` on `vehicle.get("capacity")`. -/
def capacityOk : Option PyVal → Bool
  | some v => isIntType v && decide (0 < pyNumD v)
  | Option.none => false

/-- The time-window well-formedness check shared by vehicles and jobs:
a 2-element list of ints (epoch seconds) with `tw[0] <= tw[1]`. -/
def timeWindowOk : PyVal → Bool
  | .list [a, b] => isIntType a && isIntType b && decide (pyNumD a ≤ pyNumD b)
  | _ => false

/-- Per-vehicle validation errors (`validate_payload`, vehicles loop body);
`idx` is the 1-based position used in messages. -/
def vehicleErrors (idx : Nat) (vehicle : PyVal) : List String :=
  match vehicle with
  | .dict fields =>
      (if capacityOk (dictGet fields "capacity") then []
       else [s!"`vehicles[{idx}].capacity` must be a positive integer."]) ++
      (match dictGet fields "start" with
       | some v =>
           if is_coord v then [] else [s!"`vehicles[{idx}].start` must be [lon, lat]."]
       | Option.none => []) ++
      (match dictGet fields "end" with
       | some v =>
           if is_coord v then [] else [s!"`vehicles[{idx}].end` must be [lon, lat]."]
       | Option.none => []) ++
      (match dictGet fields "time_window" with
       | some tw =>
           if timeWindowOk tw then []
           else [s!"`vehicles[{idx}].time_window` must be [start, end] in epoch seconds."]
       | Option.none => [])
  | _ => [s!"`vehicles[{idx}]` must be an object."]

/-- The vehicles loop of `validate_payload`, starting at index `idx`. -/
def vehiclesErrors (idx : Nat) : List PyVal → List String
  | [] => []
  | v :: rest => vehicleErrors idx v ++ vehiclesErrors (idx + 1) rest

/-- The `vehicles` section of `validate_payload`: required non-empty array,
else the per-vehicle checks. -/
def vehiclesSectionErrors (fields : List (String × PyVal)) : List String :=
  match dictGet fields "vehicles" with
  | some (.list (v :: vs)) => vehiclesErrors 1 (v :: vs)
  | _ => ["`vehicles` is required and must be a non-empty array."]

/-- Per-job validation errors (`validate_payload`, jobs loop body). -/
def jobErrors (idx : Nat) (job : PyVal) : List String :=
  match job with
  | .dict fields =>
      (if is_coord ((dictGet fields "location").getD .null) then []
       else [s!"`jobs[{idx}].location` must be [lon, lat]."]) ++
      (let demand := (dictGet fields "demand").getD (.int 1)
       if isIntType demand && decide (0 < pyNumD demand) then []
       else [s!"`jobs[{idx}].demand` must be a positive integer."]) ++
      (let service := (dictGet fields "service").getD .null
       if isNull service then []
       else if isIntType service && decide (0 ≤ pyNumD service) then []
       else [s!"`jobs[{idx}].service` must be a non-negative integer in seconds."]) ++
      (match dictGet fields "time_windows" with
       | some (.list (tw :: tws)) =>
           if (tw :: tws).all timeWindowOk then []
           else [s!"`jobs[{idx}].time_windows` entries must be [start, end] epoch seconds."]
       | some _ => [s!"`jobs[{idx}].time_windows` must be a non-empty array of [start, end]."]
       | Option.none => [])
  | _ => [s!"`jobs[{idx}]` must be an object."]

/-- The jobs loop of `validate_payload`, starting at index `idx`. -/
def jobsErrors (idx : Nat) : List PyVal → List String
  | [] => []
  | j :: rest => jobErrors idx j ++ jobsErrors (idx + 1) rest

/-- The `jobs` section of `validate_payload`. -/
def jobsSectionErrors (fields : List (String × PyVal)) : List String :=
  match dictGet fields "jobs" with
  | some (.list (j :: js)) => jobsErrors 1 (j :: js)
  | _ => ["`jobs` is required and must be a non-empty array."]

/-- The `depot` section of `validate_payload`: an object whose `location`
passes `is_coord` (a missing `location` gives `None`, which fails it). -/
def depotErrors (fields : List (String × PyVal)) : List String :=
  match dictGet fields "depot" with
  | some (.dict depotFields) =>
      if is_coord ((dictGet depotFields "location").getD .null) then []
      else ["`depot.location` must be [lon, lat]."]
  | _ => ["`depot` is required and must be an object."]

/-- `validate_payload` from server.py: collect every violation, in source
order (depot, vehicles, jobs); a non-object payload short-circuits. -/
def validate_payload (payload : PyVal) : List String :=
  match payload with
  | .dict fields =>
      depotErrors fields ++ vehiclesSectionErrors fields ++ jobsSectionErrors fields
  | _ => ["Payload must be a JSON object."]

/-- Identity map built by `build_vroom_request`: 1-based internal index to
external id, in input order. -/
abbrev IdMap := List (Nat × String)

/-- The external id recorded for index `idx`:
`str(entity.get("id", f"<tag><idx>"))` with `tag` being `"vehicle-"` or
`"job-"`. -/
def externalId (tag : String) (idx : Nat) (entity : PyVal) : String :=
  pyStr (pyGetD entity "id" (.str (tag ++ toString idx)))

/-- One solver vehicle record (`build_vroom_request`, vehicles loop).
`Option.none` models the uncaught `KeyError`/`AttributeError` Python would
raise on a vehicle that is not a dict or lacks `capacity`. -/
def vroomVehicle (depotLocation : PyVal) (idx : Nat) (vehicle : PyVal) : Option PyVal :=
  match vehicle with
  | .dict fields =>
      match dictGet fields "capacity" with
      | some cap =>
          let entry : List (String × PyVal) :=
            [("id", .int idx), ("capacity", .list [cap]),
             ("start", (dictGet fields "start").getD depotLocation),
             ("end", (dictGet fields "end").getD depotLocation)]
          match dictGet fields "time_window" with
          | some tw =>
              if isNull tw then some (.dict entry)
              else some (.dict (entry ++ [("time_window", tw)]))
          | Option.none => some (.dict entry)
      | Option.none => Option.none
  | _ => Option.none

/-- One solver job record (`build_vroom_request`, jobs loop).
`service` uses `job.get("service", 300)`: a present-but-null `service` is
passed through as null, the default 300 applies only when the key is absent. -/
def vroomJob (idx : Nat) (job : PyVal) : Option PyVal :=
  match job with
  | .dict fields =>
      match dictGet fields "location" with
      | some loc =>
          let demand := (dictGet fields "demand").getD (.int 1)
          let entry : List (String × PyVal) :=
            [("id", .int idx), ("location", loc),
             ("service", (dictGet fields "service").getD (.int 300)),
             ("delivery", .list [demand])]
          match dictGet fields "time_windows" with
          | some tws =>
              if isNull tws then some (.dict entry)
              else some (.dict (entry ++ [("time_windows", tws)]))
          | Option.none => some (.dict entry)
      | Option.none => Option.none
  | _ => Option.none

/-- The vehicles loop of `build_vroom_request`, starting at index `idx`:
emits the solver records and the index-to-external-id map entries. -/
def buildVehicles (depotLocation : PyVal) (idx : Nat) :
    List PyVal → Option (List PyVal × IdMap)
  | [] => some ([], [])
  | v :: rest => do
      let entry ← vroomVehicle depotLocation idx v
      let (entries, m) ← buildVehicles depotLocation (idx + 1) rest
      some (entry :: entries, (idx, externalId "vehicle-" idx v) :: m)

/-- The jobs loop of `build_vroom_request`, starting at index `idx`. -/
def buildJobs (idx : Nat) : List PyVal → Option (List PyVal × IdMap)
  | [] => some ([], [])
  | j :: rest => do
      let entry ← vroomJob idx j
      let (entries, m) ← buildJobs (idx + 1) rest
      some (entry :: entries, (idx, externalId "job-" idx j) :: m)

/-- `build_vroom_request` from server.py.  `Option.none` models an uncaught
exception (`KeyError`, `TypeError`, `AttributeError`): the function
subscripts `payload["depot"]["location"]`, `vehicle["capacity"]`,
`job["location"]` and iterates `payload["vehicles"]`/`payload["jobs"]`
without re-validating.  Iteration is modelled over lists; the validator
guarantees both collections are lists before this function runs. -/
def build_vroom_request (payload : PyVal) : Option (PyVal × IdMap × IdMap) :=
  match payload with
  | .dict fields => do
      let depot ← dictGet fields "depot"
      let depotLocation ← pyGet depot "location"
      let vehiclesVal ← dictGet fields "vehicles"
      let jobsVal ← dictGet fields "jobs"
      match vehiclesVal, jobsVal with
      | .list vehicles, .list jobs => do
          let (vroomVehicles, vehicleMap) ← buildVehicles depotLocation 1 vehicles
          let (vroomJobs, jobMap) ← buildJobs 1 jobs
          some (.dict [("vehicles", .list vroomVehicles), ("jobs", .list vroomJobs)],
                vehicleMap, jobMap)
      | _, _ => Option.none
  | _ => Option.none

/-- Outcome of the `subprocess.run` call inside `run_vroom`: either the
wall-clock timeout fired (`subprocess.TimeoutExpired`) or the process exited
with a return code, captured standard output and captured error stream. -/
inductive ProcOutcome where
  | timeout
  | exited (returncode : Int) (stdout : String) (stderr : String)

/-- Classified result of `run_vroom`: `timedOut` is the propagated
`subprocess.TimeoutExpired`, `procFailed` the `RuntimeError` raised for a
non-zero exit code or empty output (carrying `str(err)`), `badJson` the
`json.JSONDecodeError` from parsing stdout, `solved` the decoded solution. -/
inductive VroomResult where
  | timedOut
  | procFailed (msg : String)
  | badJson
  | solved (solution : PyVal)

/-- Python `str.strip()` (whitespace stripping), written with structural
recursion so that closed terms evaluate; the whitespace set is the ASCII
one actually exercised by the program's diagnostics. -/
def pyStrip (s : String) : String :=
  String.mk (((s.toList.dropWhile Char.isWhitespace).reverse.dropWhile
    Char.isWhitespace).reverse)

/-- Result of `run_vroom` together with whether the temporary scratch file
still exists afterwards. -/
structure RunOutcome where
  result : VroomResult
  tempFileRemains : Bool

/-- `run_vroom` from server.py.  The JSON decoding of solver stdout is the
oracle `parse`; the subprocess is the oracle `proc`.  The scratch file is
created before the call; the `try/finally` unlinks it on both the normal
and the `TimeoutExpired` path, so `tempFileRemains` is `false` in every
branch (the source's `except OSError: pass` only guards against the file
already being gone). -/
def run_vroom (parse : String → Option PyVal) (vroomRequest : PyVal)
    (proc : ProcOutcome) : RunOutcome :=
  let _ := vroomRequest  -- serialized into the scratch file, not read again
  match proc with
  | .timeout =>
      -- finally: os.unlink(input_path); then TimeoutExpired propagates
      { result := .timedOut, tempFileRemains := false }
  | .exited returncode out err =>
      -- finally: os.unlink(input_path); then the result is classified
      { result :=
          if returncode ≠ 0 then
            .procFailed (if pyStrip err = "" then "Unknown VROOM error" else pyStrip err)
          else if pyStrip out = "" then
            .procFailed "VROOM returned no output."
          else
            match parse out with
            | some solution => .solved solution
            | Option.none => .badJson,
        tempFileRemains := false }

/-- Python `internal in map` followed by `map[internal]` on the 1-based-int
keyed identity maps.  Python key equality is numeric (`True == 1`,
`1.0 == 1`), so any value of `bool`/`int`/`float` type can hit a key;
`None`, strings, lists and dicts never do. -/
def mapLookup (m : IdMap) (v : PyVal) : Option String :=
  if isNumType v then
    match m.find? (fun e => decide ((e.1 : Rat) = pyNumD v)) with
    | some e => some e.2
    | Option.none => Option.none
  else Option.none

/-- The steps loop of `add_external_ids`: annotate one route step with
`job_external_id` when `step.get("job")` hits the job map, else leave the
step untouched.  `Option.none` models the `AttributeError` Python raises
when a step is not a dict. -/
def annotateStep (jobMap : IdMap) (step : PyVal) : Option PyVal :=
  match step with
  | .dict fields =>
      match mapLookup jobMap ((dictGet fields "job").getD .null) with
      | some s => some (.dict (dictSet fields "job_external_id" (.str s)))
      | Option.none => some (.dict fields)
  | _ => Option.none

/-- `route.get("steps", [])` iteration of `add_external_ids`: rewrite the
`steps` list in place when present; an absent key iterates the default `[]`.
A present non-list `steps` is modelled as the uncaught error iterating it
produces. -/
def rewriteSteps (jobMap : IdMap) (fields : List (String × PyVal)) :
    Option (List (String × PyVal)) :=
  match dictGet fields "steps" with
  | some (.list steps) => do
      let steps2 ← steps.mapM (annotateStep jobMap)
      some (dictSet fields "steps" (.list steps2))
  | some _ => Option.none
  | Option.none => some fields

/-- The routes loop body of `add_external_ids`: annotate the route with
`vehicle_external_id` when `route.get("vehicle")` hits the vehicle map
(leaving it untouched otherwise), then annotate its steps. -/
def annotateRoute (vehicleMap jobMap : IdMap) (route : PyVal) : Option PyVal :=
  match route with
  | .dict fields =>
      let fields1 :=
        match mapLookup vehicleMap ((dictGet fields "vehicle").getD .null) with
        | some s => dictSet fields "vehicle_external_id" (.str s)
        | Option.none => fields
      (rewriteSteps jobMap fields1).map PyVal.dict
  | _ => Option.none

/-- The unassigned loop body of `add_external_ids`: annotate with
`job_external_id` when `unassigned.get("id")` hits the job map. -/
def annotateUnassigned (jobMap : IdMap) (unassigned : PyVal) : Option PyVal :=
  match unassigned with
  | .dict fields =>
      match mapLookup jobMap ((dictGet fields "id").getD .null) with
      | some s => some (.dict (dictSet fields "job_external_id" (.str s)))
      | Option.none => some (.dict fields)
  | _ => Option.none

/-- `add_external_ids` from server.py, written functionally: the Python code
mutates the solution's route/step/unassigned dicts in place and returns the
same object.  `solution.get("routes", [])` / `solution.get("unassigned", [])`
iterate the default `[]` when the key is absent; present non-list values are
modelled as the uncaught error iterating-and-mutating them produces.
`Option.none` models the `AttributeError` on a non-dict solution. -/
def add_external_ids (solution : PyVal) (vehicleMap jobMap : IdMap) : Option PyVal :=
  match solution with
  | .dict fields => do
      let fields1 ←
        match dictGet fields "routes" with
        | some (.list routes) => do
            let routes2 ← routes.mapM (annotateRoute vehicleMap jobMap)
            some (dictSet fields "routes" (.list routes2))
        | some _ => Option.none
        | Option.none => some fields
      let fields2 ←
        match dictGet fields1 "unassigned" with
        | some (.list us) => do
            let us2 ← us.mapM (annotateUnassigned jobMap)
            some (dictSet fields1 "unassigned" (.list us2))
        | some _ => Option.none
        | Option.none => some fields1
      some (.dict fields2)
  | _ => Option.none

/-- What a request handler produces: an HTTP response (status code and JSON
body), or an exception that escapes the handler (no well-formed response is
sent to the client). -/
inductive HandlerResult where
  | response (status : Nat) (body : PyVal)
  | crash

/-- `RoutingHandler.handle_optimize` from server.py, from the point where the
request body has been decoded into `payload` (the `Content-Length` and
JSON-decode 400 paths are transport handling outside this embedding).
`parse` is the JSON decoding of solver stdout, `proc` the subprocess
outcome.  Note the 200 body: `add_external_ids` returns the solution object
it annotated in place, and the rebound `solution` feeds `summary`, `routes`,
`unassigned` *and* `raw`. -/
def handle_optimize (parse : String → Option PyVal) (payload : PyVal)
    (proc : ProcOutcome) : HandlerResult :=
  let errors := validate_payload payload
  if errors ≠ [] then
    .response 400 (.dict [("error", .str "Validation failed."),
                          ("issues", .list (errors.map PyVal.str))])
  else
    match build_vroom_request payload with
    | Option.none => .crash
    | some (vroomRequest, vehicleMap, jobMap) =>
        match (run_vroom parse vroomRequest proc).result with
        | .timedOut => .response 504 (.dict [("error", .str "Optimization timed out.")])
        | .procFailed msg =>
            .response 502 (.dict [("error", .str "VROOM optimization failed."),
                                  ("details", .str msg)])
        | .badJson => .response 502 (.dict [("error", .str "VROOM returned invalid JSON.")])
        | .solved solution =>
            match add_external_ids solution vehicleMap jobMap with
            | Option.none => .crash
            | some annotated =>
                .response 200
                  (.dict [("status", .str "ok"),
                          ("summary", pyGetD annotated "summary" (.dict [])),
                          ("routes", pyGetD annotated "routes" (.list [])),
                          ("unassigned", pyGetD annotated "unassigned" (.list [])),
                          ("raw", annotated)])

/-- Result of `json.loads` on the probe response body. -/
inductive BodyParse where
  | malformed (msg : String)
  | parsed (v : PyVal)

/-- Outcome of the `urlopen` probe inside `check_osrm`: the call raised
(`HTTPError`/`URLError`/`TimeoutError`, carrying `str(err)`), or returned a
response with an HTTP status and a body. -/
inductive ProbeOutcome where
  | raised (msg : String)
  | response (status : Nat) (body : BodyParse)

/-- How `check_osrm` terminates: an exception of one of the types
`handle_health` catches (carrying `str(err)`), an exception it does not
catch (`AttributeError` from `.get` on a non-dict 200 body), or a normal
`(ready, detail)` return. -/
inductive CheckResult where
  | caughtErr (msg : String)
  | uncaught
  | result (ready : Bool) (detail : PyVal)

/-- Python `payload.get("code") == "Ok"`: only the exact string compares
equal. -/
def codeIsOk : Option PyVal → Bool
  | some (.str s) => s == "Ok"
  | _ => false

/-- `check_osrm` from server.py over the probe oracle: non-200 statuses
short-circuit to `(False, f"HTTP {status}")` without reading the body; a 200
body is decoded and its `code` field is compared with `"Ok"`, the detail
being `payload.get("code", "unknown")` passed through as-is. -/
def check_osrm : ProbeOutcome → CheckResult
  | .raised msg => .caughtErr msg
  | .response status body =>
      if status ≠ 200 then .result false (.str s!"HTTP {status}")
      else
        match body with
        | .malformed msg => .caughtErr msg
        | .parsed (.dict fields) =>
            .result (codeIsOk (dictGet fields "code"))
                    ((dictGet fields "code").getD (.str "unknown"))
        | .parsed _ => .uncaught

/-- The `osrm_ready` flag `handle_health` ends up with for a probe outcome. -/
def osrmReadyOf (probe : ProbeOutcome) : Bool :=
  match check_osrm probe with
  | .result ready _ => ready
  | _ => false

/-- The `detail` value `handle_health` ends up with for a probe outcome
(junk `null` in the uncaught case, where no response is built at all). -/
def osrmDetailOf (probe : ProbeOutcome) : PyVal :=
  match check_osrm probe with
  | .result _ detail => detail
  | .caughtErr msg => .str msg
  | .uncaught => .null

/-- "The upstream probe succeeds": HTTP 200 whose JSON body is an object
with `code` equal to `"Ok"`. -/
def probeSaysOk : ProbeOutcome → Bool
  | .response 200 (.parsed (.dict fields)) => codeIsOk (dictGet fields "code")
  | _ => false

/-- A probe outcome whose 200 body, when it parses, is a JSON object — the
shape `check_osrm` inspects without raising. -/
def probeBodyIsObject : ProbeOutcome → Bool
  | .response 200 (.parsed v) =>
      match v with
      | .dict _ => true
      | _ => false
  | _ => true

/-- The JSON body `handle_health` sends. -/
def healthBody (vroomReady osrmReady : Bool) (detail : PyVal) : PyVal :=
  .dict [("status", .str (if vroomReady && osrmReady then "ok" else "degraded")),
         ("checks", .dict [("vroom_binary", .str (if vroomReady then "ok" else "missing")),
                           ("osrm", .str (if osrmReady then "ok" else "down")),
                           ("osrm_detail", detail)])]

/-- `RoutingHandler.handle_health` from server.py.  `vroomReady` is the
`os.path.exists(VROOM_BIN)` oracle; the probe outcome drives `check_osrm`,
whose caught exceptions set `detail = str(err)` with `osrm_ready` left
`False`. -/
def handle_health (vroomReady : Bool) (probe : ProbeOutcome) : HandlerResult :=
  match check_osrm probe with
  | .uncaught => .crash
  | .caughtErr msg =>
      .response (if vroomReady && false then 200 else 503)
        (healthBody vroomReady false (.str msg))
  | .result ready detail =>
      .response (if vroomReady && ready then 200 else 503)
        (healthBody vroomReady ready detail)

/-! Concrete inputs used by witnesses and counterexamples. -/

/-- A minimal valid request: one vehicle, one job, everything defaulted. -/
def simplePayload : PyVal :=
  .dict [("depot", .dict [("location", .list [.int 0, .int 0])]),
         ("vehicles", .list [.dict [("capacity", .int 1)]]),
         ("jobs", .list [.dict [("location", .list [.int 0, .int 0])]])]

/-- A valid request whose vehicle carries the non-string id `7`. -/
def intIdPayload : PyVal :=
  .dict [("depot", .dict [("location", .list [.int 0, .int 0])]),
         ("vehicles", .list [.dict [("capacity", .int 1), ("id", .int 7)]]),
         ("jobs", .list [.dict [("location", .list [.int 0, .int 0])]])]

/-- A request that is a JSON boolean in every numeric position the
validator checks. -/
def boolPayload : PyVal :=
  .dict [("depot", .dict [("location", .list [.bool true, .bool true])]),
         ("vehicles", .list [.dict [("capacity", .bool true),
                                    ("time_window", .list [.bool false, .bool true])]]),
         ("jobs", .list [.dict [("location", .list [.bool true, .bool false]),
                                ("demand", .bool true),
                                ("service", .bool true),
                                ("time_windows", .list [.list [.bool true, .bool true]])]])]

/-- A valid request whose job has `"service": null` (key present, value
null). -/
def nullServicePayload : PyVal :=
  .dict [("depot", .dict [("location", .list [.int 0, .int 0])]),
         ("vehicles", .list [.dict [("capacity", .int 1)]]),
         ("jobs", .list [.dict [("location", .list [.int 0, .int 0]),
                                ("service", .null)]])]

/-- A solver solution referencing vehicle 1 and job 1. -/
def solOneRoute : PyVal :=
  .dict [("summary", .dict [("cost", .int 10)]),
         ("routes", .list [.dict [("vehicle", .int 1),
                                  ("steps", .list [.dict [("job", .int 1)]])]]),
         ("unassigned", .list [])]

/-- A parse oracle that decodes every stdout string to `solOneRoute`. -/
def parseToSolOneRoute : String → Option PyVal :=
  fun _ => some solOneRoute

/-- A parse oracle that always fails (stdout is never decoded on the paths
it is used for). -/
def parseNothing : String → Option PyVal :=
  fun _ => Option.none

/-- Status code of a handler result (junk 0 on a crash). -/
def responseStatus : HandlerResult → Nat
  | .response status _ => status
  | .crash => 0

/-- Body of a handler result (junk null on a crash). -/
def responseBody : HandlerResult → PyVal
  | .response _ body => body
  | .crash => .null

/-- Indexing into a JSON array (junk null otherwise). -/
def pyIndex (v : PyVal) (i : Nat) : PyVal :=
  match v with
  | .list xs => xs.getD i .null
  | _ => .null

/-- The solver request `build_vroom_request` produces for `simplePayload`
(and for `intIdPayload`: a vehicle's `id` feeds only the identity map). -/
def simpleVroomRequest : PyVal :=
  .dict [("vehicles",
          .list [.dict [("id", .int 1), ("capacity", .list [.int 1]),
                        ("start", .list [.int 0, .int 0]),
                        ("end", .list [.int 0, .int 0])]]),
         ("jobs",
          .list [.dict [("id", .int 1), ("location", .list [.int 0, .int 0]),
                        ("service", .int 300), ("delivery", .list [.int 1])]])]

/-- The solver request produced for `nullServicePayload`: `service` is null,
not the default 300. -/
def nullServiceRequest : PyVal :=
  .dict [("vehicles",
          .list [.dict [("id", .int 1), ("capacity", .list [.int 1]),
                        ("start", .list [.int 0, .int 0]),
                        ("end", .list [.int 0, .int 0])]]),
         ("jobs",
          .list [.dict [("id", .int 1), ("location", .list [.int 0, .int 0]),
                        ("service", .null), ("delivery", .list [.int 1])]])]

/-- A payload the validator rejects (longitude 999, capacity -5) but the
translator still processes: it re-checks no ranges. -/
def outOfRangePayload : PyVal :=
  .dict [("depot", .dict [("location", .list [.int 999, .int 999])]),
         ("vehicles", .list [.dict [("capacity", .int (-5))]]),
         ("jobs", .list [.dict [("location", .list [.int 999, .int 0])]])]

/-- A successful upstream probe: HTTP 200 with body `{"code": "Ok"}`. -/
def probeOkOutcome : ProbeOutcome :=
  .response 200 (.parsed (.dict [("code", .str "Ok")]))

/-- The fields of `simplePayload`, exposed for lemma instantiation. -/
def simpleFields : List (String × PyVal) :=
  [("depot", .dict [("location", .list [.int 0, .int 0])]),
   ("vehicles", .list [.dict [("capacity", .int 1)]]),
   ("jobs", .list [.dict [("location", .list [.int 0, .int 0])]])]

/-- `solOneRoute` after reconciliation against the identity maps of
`simplePayload`: the route, its step and (vacuously) the unassigned list
carry the external-id annotations; every other field is untouched. -/
def annotatedSolOneRoute : PyVal :=
  .dict [("summary", .dict [("cost", .int 10)]),
         ("routes",
          .list [.dict [("vehicle", .int 1),
                        ("steps",
                         .list [.dict [("job", .int 1),
                                       ("job_external_id", .str "job-1")]]),
                        ("vehicle_external_id", .str "vehicle-1")]]),
         ("unassigned", .list [])]

/-! ## Shared lemmas -/

theorem dictGet_dictSet (fs : List (String × PyVal)) (key : String) (v : PyVal)
    (k : String) :
    dictGet (dictSet fs key v) k = if k = key then some v else dictGet fs k := by
  induction fs with
  | nil =>
      by_cases h : key = k
      · subst h; simp [dictSet, dictGet]
      · have h' : ¬k = key := fun hh => h hh.symm
        simp [dictSet, dictGet, h, h']
  | cons hd tl ih =>
      obtain ⟨k0, v0⟩ := hd
      by_cases h0 : k0 = key
      · subst h0
        by_cases h : k0 = k
        · subst h; simp [dictSet, dictGet]
        · have h' : ¬k = k0 := fun hh => h hh.symm
          simp [dictSet, dictGet, h, h']
      · by_cases h : k0 = k
        · subst h; simp [dictSet, dictGet, h0]
        · simp [dictSet, dictGet, h0, h, ih]

/-! ## C5: coordinate validation -/

/-- C5: `is_coord` accepts a value exactly when it is a two-element list of
numeric values (Python's `isinstance(x, (int, float))`, which includes
booleans) with longitude in [-180, 180] and latitude in [-90, 90]; the
boundary pairs (180, 90) and (-180, -90) are accepted and (180.0001, 0) is
rejected. -/
theorem C5_is_coord_characterization :
    (∀ v : PyVal, is_coord v = true ↔
      ∃ lon lat, v = .list [lon, lat] ∧ isNumType lon = true ∧ isNumType lat = true ∧
        -180 ≤ pyNumD lon ∧ pyNumD lon ≤ 180 ∧ -90 ≤ pyNumD lat ∧ pyNumD lat ≤ 90) ∧
    is_coord (.list [.int 180, .int 90]) = true ∧
    is_coord (.list [.int (-180), .int (-90)]) = true ∧
    is_coord (.list [.float (180.0001 : Rat), .int 0]) = false := by
  refine ⟨fun v => ⟨fun h => ?_, fun h => ?_⟩, by decide, by decide,
    by norm_num [is_coord, isNumType, pyNumD]⟩
  · match v, h with
    | .list [lon, lat], h =>
        simp only [is_coord, Bool.and_eq_true, decide_eq_true_eq] at h
        exact ⟨lon, lat, rfl, h.1.1.1.1.1, h.1.1.1.1.2, h.1.1.1.2, h.1.1.2, h.1.2, h.2⟩
  · obtain ⟨lon, lat, rfl, h1, h2, h3, h4, h5, h6⟩ := h
    simp [is_coord, h1, h2, h3, h4, h5, h6]

/-- C5 witness: the characterization applied at the concrete pair (7, 43). -/
theorem C5_witness : is_coord (.list [.int 7, .int 43]) = true :=
  (C5_is_coord_characterization.1 _).mpr
    ⟨.int 7, .int 43, rfl, rfl, rfl, by norm_num [pyNumD], by norm_num [pyNumD],
     by norm_num [pyNumD], by norm_num [pyNumD]⟩

/-! ## C9: booleans pass the integer/number checks -/

/-- C9: JSON booleans are accepted wherever the validator requires an
integer or number (`bool` is a subtype of `int` in Python): a payload with
booleans as capacity, demand, service, time-window bounds and coordinate
components validates cleanly, `True` counting as 1. -/
theorem C9_boolean_subtyping :
    validate_payload boolPayload = [] ∧
    isIntType (.bool true) = true ∧ isNumType (.bool true) = true ∧
    pyNumD (.bool true) = 1 :=
  ⟨rfl, rfl, rfl, rfl⟩

/-! ## C10: a present-but-null service survives validation and translation -/

/-- C10: a job whose `service` key is present with value null passes
validation (the check fires only on non-null values), and translation emits
a solver job whose `service` is null — the default 300 applies only when
the key is entirely absent. -/
theorem C10_null_service :
    validate_payload nullServicePayload = [] ∧
    build_vroom_request nullServicePayload =
      some (nullServiceRequest, [(1, "vehicle-1")], [(1, "job-1")]) ∧
    pyGet (pyIndex (pyGetD nullServiceRequest "jobs" (.list [])) 0) "service" =
      some .null ∧
    build_vroom_request simplePayload =
      some (simpleVroomRequest, [(1, "vehicle-1")], [(1, "job-1")]) ∧
    pyGet (pyIndex (pyGetD simpleVroomRequest "jobs" (.list [])) 0) "service" =
      some (.int 300) :=
  ⟨rfl, rfl, rfl, rfl, rfl⟩

/-! ## C2: round-trip of external ids -/

/-- C2 counterexample: the validator accepts a vehicle id that is the JSON
number 7, but reconciliation annotates with the string `"7"` — `str()` of
the id — which is not the supplied value `7`. -/
theorem C2_counterexample :
    validate_payload intIdPayload = [] ∧
    build_vroom_request intIdPayload =
      some (simpleVroomRequest, [(1, "7")], [(1, "job-1")]) ∧
    annotateRoute [(1, "7")] [(1, "job-1")] (.dict [("vehicle", .int 1)]) =
      some (.dict [("vehicle", .int 1), ("vehicle_external_id", .str "7")]) ∧
    pyGet (pyIndex (pyGetD intIdPayload "vehicles" (.list [])) 0) "id" =
      some (.int 7) ∧
    PyVal.str "7" ≠ PyVal.int 7 :=
  ⟨rfl, rfl, rfl, rfl, fun h => PyVal.noConfusion h⟩

/-! ## C3: translation is total on validated payloads -/

theorem validated_structure (payload : PyVal) (h : validate_payload payload = []) :
    ∃ fields, payload = .dict fields ∧ depotErrors fields = [] ∧
      vehiclesSectionErrors fields = [] ∧ jobsSectionErrors fields = [] := by
  match payload with
  | .dict fields =>
      simp only [validate_payload, List.append_eq_nil, and_assoc] at h
      exact ⟨fields, rfl, h.1, h.2.1, h.2.2⟩
  | .null | .bool _ | .int _ | .float _ | .str _ | .list _ =>
      simp [validate_payload] at h

theorem depot_ok (fields : List (String × PyVal)) (h : depotErrors fields = []) :
    ∃ depotFields loc, dictGet fields "depot" = some (.dict depotFields) ∧
      dictGet depotFields "location" = some loc ∧ is_coord loc = true := by
  unfold depotErrors at h
  split at h
  next depotFields heq =>
    by_cases hc : is_coord ((dictGet depotFields "location").getD .null) = true
    · cases hl : dictGet depotFields "location" with
      | none => rw [hl] at hc; exact absurd hc (by decide)
      | some loc => exact ⟨depotFields, loc, heq, hl, by rw [hl] at hc; exact hc⟩
    · simp [hc] at h
  next => simp at h

theorem vehiclesSection_ok (fields : List (String × PyVal))
    (h : vehiclesSectionErrors fields = []) :
    ∃ v vs, dictGet fields "vehicles" = some (.list (v :: vs)) ∧
      vehiclesErrors 1 (v :: vs) = [] := by
  unfold vehiclesSectionErrors at h
  split at h
  next v vs heq => exact ⟨v, vs, heq, h⟩
  next => simp at h

theorem jobsSection_ok (fields : List (String × PyVal))
    (h : jobsSectionErrors fields = []) :
    ∃ j js, dictGet fields "jobs" = some (.list (j :: js)) ∧
      jobsErrors 1 (j :: js) = [] := by
  unfold jobsSectionErrors at h
  split at h
  next j js heq => exact ⟨j, js, heq, h⟩
  next => simp at h

theorem vroomVehicle_total (dep : PyVal) (idx : Nat) (v : PyVal)
    (h : vehicleErrors idx v = []) : (vroomVehicle dep idx v).isSome = true := by
  match v with
  | .dict fields =>
      simp only [vehicleErrors, List.append_eq_nil, and_assoc] at h
      obtain ⟨hcap, -, -, -⟩ := h
      have hcap' : capacityOk (dictGet fields "capacity") = true := by
        by_cases hc : capacityOk (dictGet fields "capacity") = true
        · exact hc
        · simp [hc] at hcap
      cases hget : dictGet fields "capacity" with
      | none => rw [hget] at hcap'; exact absurd hcap' (by decide)
      | some cap =>
          cases htw : dictGet fields "time_window" with
          | none => simp [vroomVehicle, hget, htw]
          | some tw => cases hn : isNull tw <;> simp [vroomVehicle, hget, htw, hn]
  | .null | .bool _ | .int _ | .float _ | .str _ | .list _ =>
      simp [vehicleErrors] at h

theorem vroomJob_total (idx : Nat) (j : PyVal)
    (h : jobErrors idx j = []) : (vroomJob idx j).isSome = true := by
  match j with
  | .dict fields =>
      simp only [jobErrors, List.append_eq_nil, and_assoc] at h
      obtain ⟨hloc, -, -, -⟩ := h
      have hloc' : is_coord ((dictGet fields "location").getD .null) = true := by
        by_cases hc : is_coord ((dictGet fields "location").getD .null) = true
        · exact hc
        · simp [hc] at hloc
      cases hget : dictGet fields "location" with
      | none => rw [hget] at hloc'; exact absurd hloc' (by decide)
      | some loc =>
          cases htw : dictGet fields "time_windows" with
          | none => simp [vroomJob, hget, htw]
          | some tws => cases hn : isNull tws <;> simp [vroomJob, hget, htw, hn]
  | .null | .bool _ | .int _ | .float _ | .str _ | .list _ =>
      simp [jobErrors] at h

theorem buildVehicles_total (dep : PyVal) (vs : List PyVal) : ∀ (idx : Nat),
    vehiclesErrors idx vs = [] → (buildVehicles dep idx vs).isSome = true := by
  induction vs with
  | nil => intro idx _; simp [buildVehicles]
  | cons v rest ih =>
      intro idx h
      simp only [vehiclesErrors, List.append_eq_nil] at h
      obtain ⟨h1, h2⟩ := h
      obtain ⟨e, he⟩ := Option.isSome_iff_exists.mp (vroomVehicle_total dep idx v h1)
      obtain ⟨⟨entries, m⟩, hpr⟩ := Option.isSome_iff_exists.mp (ih (idx + 1) h2)
      simp [buildVehicles, he, hpr]

theorem buildJobs_total (js : List PyVal) : ∀ (idx : Nat),
    jobsErrors idx js = [] → (buildJobs idx js).isSome = true := by
  induction js with
  | nil => intro idx _; simp [buildJobs]
  | cons j rest ih =>
      intro idx h
      simp only [jobsErrors, List.append_eq_nil] at h
      obtain ⟨h1, h2⟩ := h
      obtain ⟨e, he⟩ := Option.isSome_iff_exists.mp (vroomJob_total idx j h1)
      obtain ⟨⟨entries, m⟩, hpr⟩ := Option.isSome_iff_exists.mp (ih (idx + 1) h2)
      simp [buildJobs, he, hpr]

/-- C3: on every payload the validator passes with an empty error list, the
schema translation succeeds — every field it accesses (`depot.location`,
each vehicle's `capacity`, each job's `location`) is present by
construction; and it performs no range re-validation (it also succeeds on a
payload with out-of-range coordinates and a negative capacity that the
validator rejects). -/
theorem C3_translation_total :
    (∀ payload, validate_payload payload = [] →
      (build_vroom_request payload).isSome = true) ∧
    validate_payload outOfRangePayload ≠ [] ∧
    (build_vroom_request outOfRangePayload).isSome = true := by
  refine ⟨?_, by decide, by decide⟩
  intro payload h
  obtain ⟨fields, rfl, hdep, hveh, hjobs⟩ := validated_structure payload h
  obtain ⟨dfs, loc, hd, hl, -⟩ := depot_ok fields hdep
  obtain ⟨v, vs, hv, hvErr⟩ := vehiclesSection_ok fields hveh
  obtain ⟨j, js, hj, hjErr⟩ := jobsSection_ok fields hjobs
  obtain ⟨⟨ves, vm⟩, hbv⟩ :=
    Option.isSome_iff_exists.mp (buildVehicles_total loc (v :: vs) 1 hvErr)
  obtain ⟨⟨jes, jm⟩, hbj⟩ :=
    Option.isSome_iff_exists.mp (buildJobs_total (j :: js) 1 hjErr)
  simp [build_vroom_request, hd, hl, hv, hj, pyGet, hbv, hbj]

/-- C3 witness: the totality theorem applied to the concrete
`simplePayload`. -/
theorem C3_witness : (build_vroom_request simplePayload).isSome = true :=
  C3_translation_total.1 simplePayload rfl

/-! ## C2: identity-map lemmas and the round-trip theorem -/

theorem mapLookup_cons_of_ne (k : Nat) (s : String) (m : IdMap) (v : PyVal)
    (h : ¬(k : Rat) = pyNumD v) :
    mapLookup ((k, s) :: m) v = mapLookup m v := by
  unfold mapLookup
  cases hn : isNumType v with
  | false => simp [hn]
  | true => simp [hn, List.find?, decide_eq_false h]

theorem mapLookup_cons_self (k : Nat) (s : String) (m : IdMap) (v : PyVal)
    (hn : isNumType v = true) (h : (k : Rat) = pyNumD v) :
    mapLookup ((k, s) :: m) v = some s := by
  unfold mapLookup
  simp [hn, List.find?, decide_eq_true h]

theorem buildVehicles_map (dep : PyVal) (vs : List PyVal) : ∀ (idx : Nat) entries m,
    buildVehicles dep idx vs = some (entries, m) →
    ∀ i (hi : i < vs.length),
      mapLookup m (.int (idx + i)) =
        some (externalId "vehicle-" (idx + i) (vs.get ⟨i, hi⟩)) := by
  induction vs with
  | nil => intro idx entries m _ i hi; exact absurd hi (by simp)
  | cons v rest ih =>
      intro idx entries m h i hi
      cases hv : vroomVehicle dep idx v with
      | none => rw [buildVehicles, hv] at h; simp at h
      | some e =>
          cases hb : buildVehicles dep (idx + 1) rest with
          | none => rw [buildVehicles, hv, hb] at h; simp at h
          | some pr =>
              obtain ⟨es, m'⟩ := pr
              rw [buildVehicles, hv, hb] at h
              have h' : some (e :: es, (idx, externalId "vehicle-" idx v) :: m') =
                  some (entries, m) := h
              have hm : (idx, externalId "vehicle-" idx v) :: m' = m := by
                have hsnd := congrArg (fun o => Option.map Prod.snd o) h'
                simpa using hsnd
              cases i with
              | zero =>
                  rw [← hm, Nat.add_zero]
                  refine mapLookup_cons_self idx _ m' _ rfl ?_
                  simp [pyNumD]
              | succ i' =>
                  rw [← hm, mapLookup_cons_of_ne]
                  · have hnat : idx + 1 + i' = idx + (i' + 1) := by omega
                    have hint : ((idx + 1 : Nat) : Int) + (i' : Int) =
                        (idx : Int) + ((i' + 1 : Nat) : Int) := by push_cast; ring
                    have hih := ih (idx + 1) es m' hb i' (by simpa using hi)
                    rw [hnat, hint] at hih
                    exact hih
                  · simp only [pyNumD]
                    intro hc
                    have hc' : (idx : Int) = (idx : Int) + ((i' + 1 : Nat) : Int) := by
                      exact_mod_cast hc
                    omega

theorem buildJobs_map (js : List PyVal) : ∀ (idx : Nat) entries m,
    buildJobs idx js = some (entries, m) →
    ∀ i (hi : i < js.length),
      mapLookup m (.int (idx + i)) =
        some (externalId "job-" (idx + i) (js.get ⟨i, hi⟩)) := by
  induction js with
  | nil => intro idx entries m _ i hi; exact absurd hi (by simp)
  | cons j rest ih =>
      intro idx entries m h i hi
      cases hv : vroomJob idx j with
      | none => rw [buildJobs, hv] at h; simp at h
      | some e =>
          cases hb : buildJobs (idx + 1) rest with
          | none => rw [buildJobs, hv, hb] at h; simp at h
          | some pr =>
              obtain ⟨es, m'⟩ := pr
              rw [buildJobs, hv, hb] at h
              have h' : some (e :: es, (idx, externalId "job-" idx j) :: m') =
                  some (entries, m) := h
              have hm : (idx, externalId "job-" idx j) :: m' = m := by
                have hsnd := congrArg (fun o => Option.map Prod.snd o) h'
                simpa using hsnd
              cases i with
              | zero =>
                  rw [← hm, Nat.add_zero]
                  refine mapLookup_cons_self idx _ m' _ rfl ?_
                  simp [pyNumD]
              | succ i' =>
                  rw [← hm, mapLookup_cons_of_ne]
                  · have hnat : idx + 1 + i' = idx + (i' + 1) := by omega
                    have hint : ((idx + 1 : Nat) : Int) + (i' : Int) =
                        (idx : Int) + ((i' + 1 : Nat) : Int) := by push_cast; ring
                    have hih := ih (idx + 1) es m' hb i' (by simpa using hi)
                    rw [hnat, hint] at hih
                    exact hih
                  · simp only [pyNumD]
                    intro hc
                    have hc' : (idx : Int) = (idx : Int) + ((i' + 1 : Nat) : Int) := by
                      exact_mod_cast hc
                    omega

theorem annotateRoute_single (vm jm : IdMap) (x : PyVal) (s : String)
    (h : mapLookup vm x = some s) :
    annotateRoute vm jm (.dict [("vehicle", x)]) =
      some (.dict [("vehicle", x), ("vehicle_external_id", .str s)]) := by
  simp [annotateRoute, dictGet, h, rewriteSteps, dictSet]

theorem annotateStep_single (jm : IdMap) (x : PyVal) (s : String)
    (h : mapLookup jm x = some s) :
    annotateStep jm (.dict [("job", x)]) =
      some (.dict [("job", x), ("job_external_id", .str s)]) := by
  simp [annotateStep, dictGet, h, dictSet]

theorem annotateUnassigned_single (jm : IdMap) (x : PyVal) (s : String)
    (h : mapLookup jm x = some s) :
    annotateUnassigned jm (.dict [("id", x)]) =
      some (.dict [("id", x), ("job_external_id", .str s)]) := by
  simp [annotateUnassigned, dictGet, h, dictSet]

theorem externalId_of_str (tag : String) (idx : Nat) (v : PyVal) (s : String)
    (h : pyGet v "id" = some (.str s)) : externalId tag idx v = s := by
  simp [externalId, pyGetD, h, pyStr]

theorem externalId_of_absent (tag : String) (idx : Nat) (v : PyVal)
    (h : pyGet v "id" = Option.none) :
    externalId tag idx v = tag ++ toString idx := by
  simp [externalId, pyGetD, h, pyStr]

/-- C2 (amended): for every validated payload, translation succeeds and maps
every 1-based index `1 + i` (input order) to `str()` of the entity's `id`
(equal to the supplied id whenever that id is a string, and to the
synthesized default `"vehicle-<i>"`/`"job-<i>"` when the id is omitted), and
reconciliation annotates a route/step/unassigned entry referencing that
index with exactly that string. -/
theorem C2_roundtrip_external_ids
    (fields : List (String × PyVal)) (vehicles jobs : List PyVal)
    (hval : validate_payload (.dict fields) = [])
    (hveh : dictGet fields "vehicles" = some (.list vehicles))
    (hjobs : dictGet fields "jobs" = some (.list jobs)) :
    ∃ req vm jm,
      build_vroom_request (.dict fields) = some (req, vm, jm) ∧
      (∀ i (hi : i < vehicles.length),
        mapLookup vm (.int (1 + i)) =
          some (externalId "vehicle-" (1 + i) (vehicles.get ⟨i, hi⟩))) ∧
      (∀ i (hi : i < jobs.length),
        mapLookup jm (.int (1 + i)) =
          some (externalId "job-" (1 + i) (jobs.get ⟨i, hi⟩))) ∧
      (∀ i (hi : i < vehicles.length),
        annotateRoute vm jm (.dict [("vehicle", .int (1 + i))]) =
          some (.dict [("vehicle", .int (1 + i)),
            ("vehicle_external_id",
             .str (externalId "vehicle-" (1 + i) (vehicles.get ⟨i, hi⟩)))])) ∧
      (∀ i (hi : i < jobs.length),
        annotateStep jm (.dict [("job", .int (1 + i))]) =
          some (.dict [("job", .int (1 + i)),
            ("job_external_id",
             .str (externalId "job-" (1 + i) (jobs.get ⟨i, hi⟩)))])) ∧
      (∀ i (hi : i < jobs.length),
        annotateUnassigned jm (.dict [("id", .int (1 + i))]) =
          some (.dict [("id", .int (1 + i)),
            ("job_external_id",
             .str (externalId "job-" (1 + i) (jobs.get ⟨i, hi⟩)))])) ∧
      (∀ (tag : String) (idx : Nat) (v : PyVal) (s : String),
        pyGet v "id" = some (.str s) → externalId tag idx v = s) ∧
      (∀ (tag : String) (idx : Nat) (v : PyVal),
        pyGet v "id" = Option.none → externalId tag idx v = tag ++ toString idx) := by
  simp only [validate_payload, List.append_eq_nil, and_assoc] at hval
  obtain ⟨hdep, hvehS, hjobsS⟩ := hval
  obtain ⟨dfs, loc, hd, hl, -⟩ := depot_ok fields hdep
  obtain ⟨v, vs, hv', hvErr⟩ := vehiclesSection_ok fields hvehS
  obtain ⟨j, js, hj', hjErr⟩ := jobsSection_ok fields hjobsS
  rw [hveh] at hv'
  rw [hjobs] at hj'
  have hv2 : vehicles = v :: vs := by simpa using hv'
  have hj2 : jobs = j :: js := by simpa using hj'
  rw [← hv2] at hvErr
  rw [← hj2] at hjErr
  obtain ⟨⟨ves, vm⟩, hbv⟩ :=
    Option.isSome_iff_exists.mp (buildVehicles_total loc vehicles 1 hvErr)
  obtain ⟨⟨jes, jm⟩, hbj⟩ :=
    Option.isSome_iff_exists.mp (buildJobs_total jobs 1 hjErr)
  refine ⟨.dict [("vehicles", .list ves), ("jobs", .list jes)], vm, jm,
    ?_, ?_, ?_, ?_, ?_, ?_, externalId_of_str, externalId_of_absent⟩
  · simp [build_vroom_request, hd, hl, pyGet, hveh, hjobs, hbv, hbj]
  · exact buildVehicles_map loc vehicles 1 ves vm hbv
  · exact buildJobs_map jobs 1 jes jm hbj
  · intro i hi
    exact annotateRoute_single vm jm _ _ (buildVehicles_map loc vehicles 1 ves vm hbv i hi)
  · intro i hi
    exact annotateStep_single jm _ _ (buildJobs_map jobs 1 jes jm hbj i hi)
  · intro i hi
    exact annotateUnassigned_single jm _ _ (buildJobs_map jobs 1 jes jm hbj i hi)

/-- C2 witness: the round-trip theorem applied to `simplePayload`, whose
single vehicle has no `id`: the route referencing index 1 is annotated with
the synthesized default. -/
theorem C2_witness :
    annotateRoute [(1, "vehicle-1")] [(1, "job-1")] (.dict [("vehicle", .int 1)]) =
      some (.dict [("vehicle", .int 1),
                   ("vehicle_external_id", .str "vehicle-1")]) := by
  obtain ⟨req, vm, jm, hb, -, -, hroute, -, -, -, -⟩ :=
    C2_roundtrip_external_ids simpleFields
      [.dict [("capacity", .int 1)]] [.dict [("location", .list [.int 0, .int 0])]]
      rfl rfl rfl
  have hb2 : build_vroom_request (.dict simpleFields) =
      some (simpleVroomRequest, [(1, "vehicle-1")], [(1, "job-1")]) := rfl
  rw [hb2] at hb
  have h3 := Option.some.inj hb
  have hvm : vm = [(1, "vehicle-1")] := (congrArg (fun t => t.2.1) h3).symm
  have hjm : jm = [(1, "job-1")] := (congrArg (fun t => t.2.2) h3).symm
  have h0 := hroute 0 (by decide)
  rw [hvm, hjm] at h0
  exact h0

/-! ## C7: reconciliation lookups fail open -/

/-- C7: during reconciliation, a route vehicle index, route step job index,
or unassigned-entry id that misses the corresponding identity map is left
untouched: no external-id annotation is added and the entry's existing
fields are unchanged. -/
theorem C7_fail_open_lookups :
    (∀ (jm : IdMap) (fs : List (String × PyVal)),
      mapLookup jm ((dictGet fs "job").getD .null) = Option.none →
      annotateStep jm (.dict fs) = some (.dict fs)) ∧
    (∀ (jm : IdMap) (fs : List (String × PyVal)),
      mapLookup jm ((dictGet fs "id").getD .null) = Option.none →
      annotateUnassigned jm (.dict fs) = some (.dict fs)) ∧
    (∀ (vm jm : IdMap) (fs fs2 : List (String × PyVal)),
      mapLookup vm ((dictGet fs "vehicle").getD .null) = Option.none →
      annotateRoute vm jm (.dict fs) = some (.dict fs2) →
      dictGet fs2 "vehicle_external_id" = dictGet fs "vehicle_external_id" ∧
      ∀ k, k ≠ "steps" → dictGet fs2 k = dictGet fs k) := by
  refine ⟨?_, ?_, ?_⟩
  · intro jm fs h
    simp [annotateStep, h]
  · intro jm fs h
    simp [annotateUnassigned, h]
  · intro vm jm fs fs2 h hr
    simp only [annotateRoute, h] at hr
    unfold rewriteSteps at hr
    split at hr
    next steps hsteps =>
      cases hms : steps.mapM (annotateStep jm) with
      | none => rw [hms] at hr; simp at hr
      | some steps2 =>
          rw [hms] at hr
          have hr2 : some (PyVal.dict (dictSet fs "steps" (.list steps2))) =
              some (.dict fs2) := hr
          have hfs2 : dictSet fs "steps" (.list steps2) = fs2 :=
            PyVal.dict.inj (Option.some.inj hr2)
          constructor
          · rw [← hfs2, dictGet_dictSet]
            simp
          · intro k hk
            rw [← hfs2, dictGet_dictSet, if_neg hk]
    next => simp at hr
    next =>
      have hr2 : some (PyVal.dict fs) = some (.dict fs2) := hr
      have hfs2 : fs = fs2 := PyVal.dict.inj (Option.some.inj hr2)
      subst hfs2
      exact ⟨rfl, fun _ _ => rfl⟩

/-- C7 witness: an unmapped job index (5 against a map holding only 1)
leaves the step unchanged. -/
theorem C7_witness :
    annotateStep [(1, "job-1")] (.dict [("job", .int 5)]) =
      some (.dict [("job", .int 5)]) :=
  C7_fail_open_lookups.1 [(1, "job-1")] [("job", .int 5)] rfl

/-! ## C4: solver process failure details -/

/-- C4 (amended): a non-zero solver exit code yields a 502 response whose
`details` field is the *whitespace-stripped* error-stream text when that is
non-empty, and the generic "Unknown VROOM error" when stripping leaves it
empty — not the verbatim stream text. -/
theorem C4_proc_error_details (parse : String → Option PyVal)
    (payload req : PyVal) (vm jm : IdMap) (rc : Int) (out err : String)
    (hval : validate_payload payload = [])
    (hbuild : build_vroom_request payload = some (req, vm, jm))
    (hrc : rc ≠ 0) :
    handle_optimize parse payload (.exited rc out err) =
      .response 502 (.dict [("error", .str "VROOM optimization failed."),
        ("details",
         .str (if pyStrip err = "" then "Unknown VROOM error" else pyStrip err))]) := by
  simp [handle_optimize, hval, hbuild, run_vroom, hrc]

/-- C4 witness: the 502 mapping applied at a concrete request with
error-stream text "x". -/
theorem C4_witness :
    handle_optimize parseNothing simplePayload (.exited 1 "" "x") =
      .response 502 (.dict [("error", .str "VROOM optimization failed."),
        ("details", .str "x")]) := by
  have h := C4_proc_error_details parseNothing simplePayload simpleVroomRequest
    [(1, "vehicle-1")] [(1, "job-1")] 1 "" "x" rfl rfl (by decide)
  rw [if_neg (by decide : ¬(pyStrip "x" = "")), show pyStrip "x" = "x" from by decide] at h
  exact h

/-- C4 counterexample: with error stream "boom\n" (non-empty), `details` is
the stripped "boom", not the verbatim text. -/
theorem C4_counterexample :
    handle_optimize parseNothing simplePayload (.exited 1 "" "boom\n") =
      .response 502 (.dict [("error", .str "VROOM optimization failed."),
        ("details", .str "boom")]) ∧
    "boom" ≠ "boom\n" :=
  ⟨rfl, by decide⟩

/-! ## C8: scratch-file cleanup and the timeout path -/

/-- C8: on every solver outcome — exit with any code, empty or malformed
output, or timeout — the scratch file is gone after `run_vroom` (the
`try/finally` unlinks it), and a timeout yields exactly a 504 response. -/
theorem C8_temp_file_cleanup (parse : String → Option PyVal) (req : PyVal)
    (proc : ProcOutcome) (payload req2 : PyVal) (vm jm : IdMap) :
    (run_vroom parse req proc).tempFileRemains = false ∧
    (proc = .timeout → validate_payload payload = [] →
      build_vroom_request payload = some (req2, vm, jm) →
      handle_optimize parse payload proc =
        .response 504 (.dict [("error", .str "Optimization timed out.")])) := by
  constructor
  · cases proc <;> rfl
  · rintro rfl hval hbuild
    simp [handle_optimize, hval, hbuild, run_vroom]

/-- C8 witness: cleanup and the 504 at a concrete timed-out request. -/
theorem C8_witness :
    (run_vroom parseNothing PyVal.null .timeout).tempFileRemains = false ∧
    handle_optimize parseNothing simplePayload .timeout =
      .response 504 (.dict [("error", .str "Optimization timed out.")]) :=
  ⟨(C8_temp_file_cleanup parseNothing PyVal.null .timeout simplePayload
      simpleVroomRequest [(1, "vehicle-1")] [(1, "job-1")]).1,
   (C8_temp_file_cleanup parseNothing PyVal.null .timeout simplePayload
      simpleVroomRequest [(1, "vehicle-1")] [(1, "job-1")]).2 rfl rfl rfl⟩

/-! ## C1: the 200 response's routes/unassigned/raw fields -/

/-- C1 (amended): on a successful optimize request the `routes` and
`unassigned` fields carry the external-id-annotated view, and `raw` carries
the *same annotated solution object* — `add_external_ids` annotates the
solver solution in place and returns it, so `raw` includes the
`vehicle_external_id`/`job_external_id` annotations rather than the
solver's unmodified output (all other solver fields are passed through
untouched). -/
theorem C1_response_fields (parse : String → Option PyVal)
    (payload req sol annotated : PyVal) (vm jm : IdMap) (out err : String)
    (hval : validate_payload payload = [])
    (hbuild : build_vroom_request payload = some (req, vm, jm))
    (hout : ¬pyStrip out = "")
    (hparse : parse out = some sol)
    (hann : add_external_ids sol vm jm = some annotated) :
    handle_optimize parse payload (.exited 0 out err) =
      .response 200 (.dict [("status", .str "ok"),
        ("summary", pyGetD annotated "summary" (.dict [])),
        ("routes", pyGetD annotated "routes" (.list [])),
        ("unassigned", pyGetD annotated "unassigned" (.list [])),
        ("raw", annotated)]) := by
  simp [handle_optimize, hval, hbuild, run_vroom, hout, hparse, hann]

/-- C1 witness: the 200-response shape at a concrete solved request. -/
theorem C1_witness :
    handle_optimize parseToSolOneRoute simplePayload (.exited 0 "x" "") =
      .response 200 (.dict [("status", .str "ok"),
        ("summary", pyGetD annotatedSolOneRoute "summary" (.dict [])),
        ("routes", pyGetD annotatedSolOneRoute "routes" (.list [])),
        ("unassigned", pyGetD annotatedSolOneRoute "unassigned" (.list [])),
        ("raw", annotatedSolOneRoute)]) :=
  C1_response_fields parseToSolOneRoute simplePayload simpleVroomRequest
    solOneRoute annotatedSolOneRoute [(1, "vehicle-1")] [(1, "job-1")] "x" ""
    rfl rfl (by decide) rfl rfl

/-- C1 counterexample: at a concrete request the `raw` field is the
annotated solution — its first route carries `vehicle_external_id` — and is
therefore not the unmodified solver output `solOneRoute`. -/
theorem C1_counterexample :
    responseStatus
      (handle_optimize parseToSolOneRoute simplePayload (.exited 0 "x" "")) = 200 ∧
    pyGet (responseBody
      (handle_optimize parseToSolOneRoute simplePayload (.exited 0 "x" ""))) "raw" =
      some annotatedSolOneRoute ∧
    pyGet (pyIndex (pyGetD annotatedSolOneRoute "routes" (.list [])) 0)
        "vehicle_external_id" = some (.str "vehicle-1") ∧
    annotatedSolOneRoute ≠ solOneRoute := by
  refine ⟨rfl, rfl, rfl, ?_⟩
  intro h
  have h2 : (some (PyVal.str "vehicle-1") : Option PyVal) = Option.none := by
    have h3 := congrArg
      (fun v => pyGet (pyIndex (pyGetD v "routes" (.list [])) 0) "vehicle_external_id") h
    exact h3
  exact Option.noConfusion h2

/-! ## C6: the health endpoint -/

theorem probeSaysOk_of_ne (status : Nat) (body : BodyParse) (hs : status ≠ 200) :
    probeSaysOk (.response status body) = false := by
  unfold probeSaysOk
  split
  next heq =>
    exact absurd (by injection heq) hs
  next => rfl

/-- C6 (amended): whenever the upstream's 200 probe body parses to a JSON
object (on any other 200 body the handler raises an uncaught error and
sends no response at all), the health endpoint returns 200 with status
"ok" exactly when the solver binary is present and the probe succeeded
(HTTP 200 with code "Ok"), and 503 with status "degraded" otherwise; the
`checks` object reports `vroom_binary` as ok/missing, `osrm` as ok/down,
and `osrm_detail` carries the upstream's reported code value as-is (a
string whenever the code field is a string or absent) or the
transport-error text. -/
theorem C6_health_status (vb : Bool) (probe : ProbeOutcome)
    (h : probeBodyIsObject probe = true) :
    handle_health vb probe =
      .response (if vb && osrmReadyOf probe then 200 else 503)
        (healthBody vb (osrmReadyOf probe) (osrmDetailOf probe)) ∧
    ((vb && osrmReadyOf probe) = true ↔ (vb = true ∧ probeSaysOk probe = true)) := by
  cases probe with
  | raised msg =>
      exact ⟨by simp [handle_health, check_osrm, osrmReadyOf, osrmDetailOf],
             by simp [osrmReadyOf, check_osrm, probeSaysOk]⟩
  | response status body =>
      by_cases hs : status = 200
      · subst hs
        cases body with
        | malformed msg =>
            exact ⟨by simp [handle_health, check_osrm, osrmReadyOf, osrmDetailOf],
                   by simp [osrmReadyOf, check_osrm, probeSaysOk]⟩
        | parsed v =>
            cases v with
            | dict fs =>
                refine ⟨by simp [handle_health, check_osrm, osrmReadyOf, osrmDetailOf], ?_⟩
                simp [osrmReadyOf, check_osrm, probeSaysOk, Bool.and_eq_true]
            | null | bool _ | int _ | float _ | str _ | list _ =>
                exact absurd h (by simp [probeBodyIsObject])
      · constructor
        · simp [handle_health, check_osrm, hs, osrmReadyOf, osrmDetailOf]
        · rw [probeSaysOk_of_ne status body hs]
          have : osrmReadyOf (.response status body) = false := by
            simp [osrmReadyOf, check_osrm, hs]
          rw [this]
          simp

/-- C6 witness: binary present and a probe answering 200 `{"code":"Ok"}`
give the 200/ok response. -/
theorem C6_witness :
    handle_health true probeOkOutcome =
      .response (if true && osrmReadyOf probeOkOutcome then 200 else 503)
        (healthBody true (osrmReadyOf probeOkOutcome) (osrmDetailOf probeOkOutcome)) ∧
    ((true && osrmReadyOf probeOkOutcome) = true ↔
      (true = true ∧ probeSaysOk probeOkOutcome = true)) :=
  C6_health_status true probeOkOutcome rfl

/-- C6 counterexample: with the solver binary present and an upstream 200
response whose JSON body is the array `[]` — not a success, so the claim
demands a 503 "degraded" response — the handler raises an uncaught
`AttributeError` (`payload.get` on a list) and sends no response at all. -/
theorem C6_counterexample :
    probeSaysOk (.response 200 (.parsed (.list []))) = false ∧
    handle_health true (.response 200 (.parsed (.list []))) = .crash :=
  ⟨rfl, rfl⟩

end DeliveryOptimizer
